import Mathlib

/-!
Verification of the OpenBuildings explorer pipeline.

Shallow embedding of the core functions of the repository:
  - file_manager.py : remove_folder_contents, uncompress
  - openbuildings.py : wkt_to_s2, download_data_from_s2_code (the module
    imported by main.py), uncompress (identical to file_manager.py)
  - google_openbuildings.py : the fsspec-based variant of the fetcher
  - main.py : download_and_process_gob_data, load_and_filter_gob_data

Files are modelled as lists of byte values, the local filesystem as an
association list from paths to contents, remote transfers as a list of
stream events (a data chunk, a remote-object-missing failure, or any other
transfer failure), and building geometries as finite sets of points so that
the geopandas intersects predicate (true when two geometries share at least
one point) is decidable.
-/

deriving instance DecidableEq for Except

/-- Bytes of a file, modelled as a list of byte values. -/
abbrev Bytes := List Nat

/-- The local filesystem: an association of paths to file contents. -/
abbrev Fs := List (String × Bytes)

/-- Look up the content stored at a path. -/
def lookupFs : Fs → String → Option Bytes
  | [], _ => none
  | (q, b) :: rest, p => if q = p then some b else lookupFs rest p

/-- Delete the file at a path, as os.remove / os.unlink do. -/
def removeFile (fs : Fs) (p : String) : Fs :=
  fs.filter (fun e => decide (e.1 ≠ p))

/-- Create or truncate the file at a path with the given content, as
opening a path in mode wb does. -/
def setFile (fs : Fs) (p : String) (b : Bytes) : Fs :=
  (p, b) :: removeFile fs p

/-- Append bytes to the file at a path (a chunked write to an open handle). -/
def appendFile (fs : Fs) (p : String) (c : Bytes) : Fs :=
  setFile fs p ((lookupFs fs p).getD [] ++ c)

/-- Embedding of the Python expression gzipped_file.replace(".gz", ""):
scan left to right and drop every non-overlapping occurrence of the three
characters dot, g, z. -/
def replaceGz : List Char → List Char
  | [] => []
  | [c] => [c]
  | [c, d] => [c, d]
  | c :: d :: e :: rest =>
    if c = '.' ∧ d = 'g' ∧ e = 'z' then replaceGz rest
    else c :: replaceGz (d :: e :: rest)

/-- Whether the three characters dot, g, z occur as a contiguous substring. -/
def containsGz : List Char → Bool
  | [] => false
  | [_] => false
  | [_, _] => false
  | c :: d :: e :: rest =>
    if c = '.' ∧ d = 'g' ∧ e = 'z' then true
    else containsGz (d :: e :: rest)

/-- The output path computed by uncompress in file_manager.py and
openbuildings.py: the source writes gzipped_file.replace(".gz", ""). -/
def gzName (p : String) : String :=
  String.mk (replaceGz p.toList)

/-- Modelled reading of a gzip stream, as the gzip library behaves: an
empty underlying file reads as empty output, a stream with the gzip magic
header yields its payload, and anything else is a format error. -/
def gunzipBytes : Bytes → Option Bytes
  | [] => some []
  | 31 :: 139 :: payload => some payload
  | _ => none

/-- Failure of the gzip read that is not a missing file (BadGzipFile and
the like); uncompress does not catch it, so it propagates to the caller. -/
inductive GzError
  | badFormat
  deriving DecidableEq, Repr

/-- Embedding of uncompress from file_manager.py (the copy in
openbuildings.py is textually identical).  The source opens the gzipped
input (FileNotFoundError is caught and None returned), opens the output
path computed by dropping every ".gz" occurrence — which truncates that
path before any byte is copied — streams the decompressed bytes into it,
optionally deletes the compressed input, and returns the output path. -/
def uncompress (fs : Fs) (gzipped_file : String) (delete_compressed : Bool) :
    Except GzError (Option String) × Fs :=
  match lookupFs fs gzipped_file with
  | none => (.ok none, fs)
  | some _ =>
    let out := gzName gzipped_file
    let fs1 := setFile fs out []
    match gunzipBytes ((lookupFs fs1 gzipped_file).getD []) with
    | none => (.error .badFormat, fs1)
    | some x =>
      let fs2 := setFile fs1 out x
      let fs3 := if delete_compressed then removeFile fs2 gzipped_file else fs2
      (.ok (some out), fs3)

/-- Modelled from the spec: the output name of the decompressor is the
input path with only the trailing compression suffix ".gz" dropped.  Used
to compare the specified naming rule with the one the source implements. -/
def dropTrailingGz (p : String) : String :=
  match p.toList.reverse with
  | 'z' :: 'g' :: '.' :: rest => String.mk rest.reverse
  | _ => p

/-- Kind of a directory entry as os.path.isfile distinguishes them. -/
inductive EntryKind
  | file
  | dir
  deriving DecidableEq, Repr

/-- One entry of the download directory.  The unlinkOk flag records
whether the os.unlink call for this entry succeeds; a failing unlink
raises inside the per-entry try block of the source. -/
structure Entry where
  name : String
  kind : EntryKind
  unlinkOk : Bool
  deriving DecidableEq, Repr

/-- Embedding of remove_folder_contents from file_manager.py: iterate over
the directory listing; unlink an entry only when os.path.isfile holds;
every per-entry exception is caught, printed and iteration continues.  The
first component is the listing that remains, the second the printed
failure messages (named by the failing entry). -/
def remove_folder_contents (entries : List Entry) : List Entry × List String :=
  match entries with
  | [] => ([], [])
  | e :: rest =>
    let r := remove_folder_contents rest
    match e.kind, e.unlinkOk with
    | .file, true => r
    | .file, false => (e :: r.1, e.name :: r.2)
    | .dir, _ => (e :: r.1, r.2)

/-- One event of a remote object transfer: a data chunk arriving, the
remote object turning out to be missing (tf.errors.NotFoundError in the
tensorflow-based fetcher, FileNotFoundError in the fsspec-based one), or
any other transfer failure. -/
inductive StreamItem
  | chunk (data : Bytes)
  | notFound
  | otherError
  deriving DecidableEq, Repr

/-- Failure observed while reading the remote stream. -/
inductive StreamErr
  | notFound
  | otherError
  deriving DecidableEq, Repr

/-- Outcome of a fetch: the returned path, a None return (the source
returns None both for a missing remote object and, in the fsspec variant,
for any caught error), or an uncaught exception propagating to the
caller. -/
inductive FetchOutcome
  | ok (path : String)
  | notFound
  | raised
  deriving DecidableEq, Repr

/-- The destination path os.path.join(data_dir, s2_code + "_buildings.csv.gz"). -/
def shardPath (data_dir s2_code : String) : String :=
  data_dir ++ "/" ++ s2_code ++ "_buildings.csv.gz"

/-- Stream the remote events into the open local file: append each data
chunk, stop at the first failure.  Returns the filesystem, the failure if
any, and the number of remote reads performed. -/
def writeChunks (path : String) : Fs → List StreamItem → Fs × Option StreamErr × Nat
  | fs, [] => (fs, none, 0)
  | fs, .chunk c :: rest =>
    let r := writeChunks path (appendFile fs path c) rest
    (r.1, r.2.1, r.2.2 + 1)
  | fs, .notFound :: _ => (fs, some .notFound, 1)
  | fs, .otherError :: _ => (fs, some .otherError, 1)

/-- Embedding of download_data_from_s2_code from openbuildings.py, the
module main.py imports.  If the destination path exists it is returned at
once with no remote read.  Otherwise the source opens the local file in
mode wb (creating it empty) and only then starts reading the remote
object — the tensorflow GFile is lazy, so a missing remote object raises
on the first read, after the local file was created.  The only except arm
catches NotFoundError and returns None without removing the local file;
every other failure propagates with no cleanup and no retry. -/
def download_data_from_s2_code (s2_code data_dir : String)
    (remote : List StreamItem) (fs : Fs) : FetchOutcome × Fs × Nat :=
  let output_path := shardPath data_dir s2_code
  if (lookupFs fs output_path).isSome then (.ok output_path, fs, 0)
  else
    let fs1 := setFile fs output_path []
    match writeChunks output_path fs1 remote with
    | (fs2, none, n) => (.ok output_path, fs2, n)
    | (fs2, some .notFound, n) => (.notFound, fs2, n)
    | (fs2, some .otherError, n) => (.raised, fs2, n)

/-- Embedding of the fsspec-based download_data_from_s2_code from
google_openbuildings.py.  There the remote object is opened and sized
before the local file is created, so a failure at open time leaves no
local file; a failure after the local open is caught by the except arm,
which removes the partial file and returns None. -/
def download_data_from_s2_code_gcs (s2_code data_dir : String)
    (remote : List StreamItem) (fs : Fs) : FetchOutcome × Fs × Nat :=
  let output_path := shardPath data_dir s2_code
  if (lookupFs fs output_path).isSome then (.ok output_path, fs, 0)
  else
    match remote with
    | .notFound :: _ => (.notFound, fs, 1)
    | .otherError :: _ => (.notFound, fs, 1)
    | _ =>
      let fs1 := setFile fs output_path []
      match writeChunks output_path fs1 remote with
      | (fs2, none, n) => (.ok output_path, fs2, n)
      | (fs2, some _, n) => (.notFound, removeFile fs2 output_path, n)

/-- A building geometry, abstracted to the finite set of points it
covers; enough to make the intersects predicate of the claims decidable. -/
abbrev Geom := List (Int × Int)

/-- The geopandas intersects predicate: true exactly when the two
geometries share at least one point. -/
def intersects (g region : Geom) : Bool :=
  g.any (fun p => region.any (fun q => p == q))

/-- One parsed row of a shard: the six columns of the building dataset,
with the geometry column already parsed from WKT.  The source assigns the
name full_plus_code to the last column. -/
structure Row where
  latitude : Rat
  longitude : Rat
  area_in_meters : Rat
  confidence : Rat
  geometry : Geom
  full_plus_code : String
  deriving DecidableEq, Repr

/-- Failures of the load step: pandas EmptyDataError on an empty file, and
the NameError when the loop never produced a file path. -/
inductive LoadError
  | emptyData
  | noFile
  deriving DecidableEq, Repr

/-- Embedding of pd.read_csv(gob_filepath) as called in
load_and_filter_gob_data: no header argument is passed, so pandas consumes
the first row of the file as column labels and only the remaining rows
become data; an empty file raises EmptyDataError. -/
def readCsvDefault (content : List Row) : Except LoadError (List Row) :=
  match content with
  | [] => .error .emptyData
  | _ :: rows => .ok rows

/-- Arithmetic mean of a confidence column, as pandas Series.mean: the
mean over zero rows is NaN, modelled as none. -/
def meanConfidence (l : List Rat) : Option Rat :=
  match l with
  | [] => none
  | _ => some (l.sum / (l.length : Rat))

/-- What load_and_filter_gob_data publishes to the session state:
building_count, avg_confidence and the filtered rows. -/
structure FilterResult where
  building_count : Nat
  avg_confidence : Option Rat
  filtered : List Row
  deriving DecidableEq, Repr

/-- Embedding of load_and_filter_gob_data from main.py (the copy in
google_openbuildings.py is the same computation): read the file with
pandas defaults, assign the six column names, keep the rows whose geometry
intersects the input geometry, and publish count, mean confidence and the
filtered rows. -/
def load_and_filter_gob_data (content : List Row) (input_geometry : Geom) :
    Except LoadError FilterResult :=
  match readCsvDefault content with
  | .error e => .error e
  | .ok rows =>
    let filtered := rows.filter (fun r => intersects r.geometry input_geometry)
    .ok ⟨filtered.length, meanConfidence (filtered.map Row.confidence), filtered⟩

/-- The value of the gob_filepath variable after the download loop of
download_and_process_gob_data in main.py: every iteration rebinds it to
the file of the current token, so after the loop it names the file of the
last token only (none when there was no token at all). -/
def processLoopPath (s2_tokens : List String) : Option String :=
  s2_tokens.foldl (fun _ t => some t) none

/-- Embedding of download_and_process_gob_data from main.py followed by
its final load_and_filter_gob_data call.  shardFile gives, per cell token,
the parsed content of the decompressed shard file that the download and
uncompress of that token produce.  The source calls
load_and_filter_gob_data once, after the loop, on gob_filepath — that is,
on the last shard only. -/
def download_and_process_gob_data (s2_tokens : List String)
    (shardFile : String → List Row) (input_geometry : Geom) :
    Except LoadError FilterResult :=
  match processLoopPath s2_tokens with
  | none => .error .noFile
  | some t => load_and_filter_gob_data (shardFile t) input_geometry

/-- The geometry kinds shapely distinguishes that matter here. -/
inductive GeomKind
  | point
  | lineString
  | polygon
  | multiPoint
  | multiLineString
  | multiPolygon
  | geometryCollection
  deriving DecidableEq, Repr

/-- Whether the string starts with the given tag. -/
def hasTag (tag s : String) : Bool :=
  s.toList.take tag.toList.length == tag.toList

/-- Modelled WKT type detection of GeoSeries.from_wkt: the geometry kind
is read off the leading WKT keyword; a string with no recognised keyword
fails to parse at all (shapely raises a parse error, not a kind error). -/
def wktKind (s : String) : Option GeomKind :=
  if hasTag "MULTIPOLYGON" s then some .multiPolygon
  else if hasTag "MULTIPOINT" s then some .multiPoint
  else if hasTag "MULTILINESTRING" s then some .multiLineString
  else if hasTag "POLYGON" s then some .polygon
  else if hasTag "POINT" s then some .point
  else if hasTag "LINESTRING" s then some .lineString
  else if hasTag "GEOMETRYCOLLECTION" s then some .geometryCollection
  else none

/-- How wkt_to_s2 can fail: the WKT does not parse at all (raised by
GeoSeries.from_wkt before the type check), or it parses to a geometry that
is not a POLYGON or MULTIPOLYGON (the ValueError raised by the source). -/
inductive CoverError
  | parseError
  | invalidGeometryKind
  deriving DecidableEq, Repr

/-- Embedding of wkt_to_s2 (identical in openbuildings.py and
google_openbuildings.py): parse the WKT, raise for a non-polygonal kind,
and otherwise return the S2 covering tokens of the bounding rectangle.
The covering computation itself is performed by the s2geometry library and
is passed in as a function; no claim depends on the token values. -/
def wkt_to_s2 (covering : String → List String) (your_own_wkt_polygon : String) :
    Except CoverError (List String) :=
  match wktKind your_own_wkt_polygon with
  | none => .error .parseError
  | some k =>
    if k = .polygon ∨ k = .multiPolygon then .ok (covering your_own_wkt_polygon)
    else .error .invalidGeometryKind

/-- The cell tokens the app goes on to download for an uploaded region:
display_selected_feature computes wkt_to_s2 first, and every exception it
raises is caught by process_uploaded_file before any download is offered,
so a failing wkt_to_s2 means no download at all. -/
def pipelineDownloads (covering : String → List String) (s : String) : List String :=
  match wkt_to_s2 covering s with
  | .error _ => []
  | .ok tokens => tokens

/-- Shard content of the end-to-end scenario of the spec, cell A: the
decompressed file holds exactly the three buildings that intersect the
region, with confidences 0.9, 0.8 and 0.95. -/
def rowA1 : Row := ⟨0, 0, 10, 9 / 10, [(0, 0)], "pcA1"⟩

/-- Second building of shard A (confidence 0.8). -/
def rowA2 : Row := ⟨0, 0, 10, 8 / 10, [(0, 0)], "pcA2"⟩

/-- Third building of shard A (confidence 0.95). -/
def rowA3 : Row := ⟨0, 0, 10, 19 / 20, [(0, 0)], "pcA3"⟩

/-- Shard content of the scenario, cell B: one building that does not
intersect the region, so B contributes zero intersecting rows. -/
def rowB1 : Row := ⟨5, 5, 10, 1 / 2, [(5, 5)], "pcB1"⟩

/-- The region of the scenario: it meets the point (0, 0) shared by the
three shard-A geometries and misses the shard-B geometry. -/
def scenarioRegion : Geom := [(0, 0)]

/-- The decompressed shard files of the scenario, per cell token. -/
def scenarioShards : String → List Row := fun t =>
  if t = "A" then [rowA1, rowA2, rowA3]
  else if t = "B" then [rowB1]
  else []

/-- Helper: a lookup after deleting the same path finds nothing. -/
theorem lookupFs_removeFile_self (fs : Fs) (p : String) :
    lookupFs (removeFile fs p) p = none := by
  induction fs with
  | nil => rfl
  | cons e rest ih =>
    rcases e with ⟨q, b⟩
    by_cases h : q = p
    · simpa [removeFile, List.filter_cons, h] using ih
    · simpa [removeFile, List.filter_cons, h, lookupFs] using ih

/-- Helper: deleting one path does not change lookups at another path. -/
theorem lookupFs_removeFile_ne (fs : Fs) (p q : String) (h : p ≠ q) :
    lookupFs (removeFile fs q) p = lookupFs fs p := by
  have hqp : ¬ q = p := fun hc => h hc.symm
  induction fs with
  | nil => rfl
  | cons e rest ih =>
    rcases e with ⟨r, b⟩
    by_cases hr : r = q
    · subst hr
      rw [show removeFile ((r, b) :: rest) r = removeFile rest r from by
        simp [removeFile, List.filter_cons]]
      rw [show lookupFs ((r, b) :: rest) p = lookupFs rest p from by
        simp [lookupFs, hqp]]
      exact ih
    · by_cases hp : r = p
      · subst hp
        rw [show removeFile ((r, b) :: rest) q = (r, b) :: removeFile rest q from by
          simp [removeFile, List.filter_cons, hr]]
        simp [lookupFs]
      · rw [show removeFile ((r, b) :: rest) q = (r, b) :: removeFile rest q from by
          simp [removeFile, List.filter_cons, hr]]
        simp [lookupFs, hp]
        exact ih

/-- Helper: a lookup right after writing the same path finds the write. -/
theorem lookupFs_setFile_self (fs : Fs) (p : String) (b : Bytes) :
    lookupFs (setFile fs p b) p = some b := by
  simp [setFile, lookupFs]

/-- Helper: writing one path does not change lookups at another path. -/
theorem lookupFs_setFile_ne (fs : Fs) (p q : String) (b : Bytes) (h : p ≠ q) :
    lookupFs (setFile fs q b) p = lookupFs fs p := by
  have hqp : ¬ q = p := fun hc => h hc.symm
  simp only [setFile, lookupFs, if_neg hqp]
  exact lookupFs_removeFile_ne fs p q h

/-- Helper: once the destination file exists, streaming chunks into it
never makes it disappear, whatever failure ends the stream. -/
theorem writeChunks_keeps (path : String) (fs : Fs) (l : List StreamItem)
    (h : (lookupFs fs path).isSome = true) :
    (lookupFs (writeChunks path fs l).1 path).isSome = true := by
  induction l generalizing fs with
  | nil => exact h
  | cons it rest ih =>
    cases it with
    | chunk c =>
      simpa [writeChunks] using
        ih (appendFile fs path c) (by simp [appendFile, lookupFs_setFile_self])
    | notFound => simpa [writeChunks] using h
    | otherError => simpa [writeChunks] using h

/-- Helper: after any call of the fetcher, a file exists at the
destination path — the cache-hit branch requires it and the download
branch creates it before the first remote read. -/
theorem download_keeps_file (s2_code data_dir : String) (s : List StreamItem) (fs : Fs) :
    (lookupFs (download_data_from_s2_code s2_code data_dir s fs).2.1
      (shardPath data_dir s2_code)).isSome = true := by
  unfold download_data_from_s2_code
  by_cases h : (lookupFs fs (shardPath data_dir s2_code)).isSome = true
  · simp [h]
  · have h0 : (lookupFs (setFile fs (shardPath data_dir s2_code) [])
        (shardPath data_dir s2_code)).isSome = true := by
      simp [lookupFs_setFile_self]
    have hk := writeChunks_keeps (shardPath data_dir s2_code)
      (setFile fs (shardPath data_dir s2_code) []) s h0
    rcases hw : writeChunks (shardPath data_dir s2_code)
        (setFile fs (shardPath data_dir s2_code) []) s with ⟨fs2, err, n⟩
    rw [hw] at hk
    rcases err with _ | e
    · simpa [h, hw] using hk
    · cases e <;> simpa [h, hw] using hk

/-- Helper: the cache-hit branch of the fetcher returns the existing path
with the filesystem untouched and zero remote reads. -/
theorem download_data_cached (s2_code data_dir : String) (s : List StreamItem) (fs : Fs)
    (h : (lookupFs fs (shardPath data_dir s2_code)).isSome = true) :
    download_data_from_s2_code s2_code data_dir s fs =
      (.ok (shardPath data_dir s2_code), fs, 0) := by
  unfold download_data_from_s2_code
  simp [h]

/-- Helper: removing the pattern shortens or keeps the length. -/
theorem replaceGz_length_le (l : List Char) : (replaceGz l).length ≤ l.length := by
  induction l using replaceGz.induct with
  | case1 => simp [replaceGz]
  | case2 c => simp [replaceGz]
  | case3 c d => simp [replaceGz]
  | case4 c d e rest hcond ih =>
    rw [replaceGz, if_pos hcond]
    simp only [List.length_cons]
    omega
  | case5 c d e rest hcond ih =>
    rw [replaceGz, if_neg hcond]
    simp only [List.length_cons] at *
    omega

/-- Helper: when the pattern occurs, removal strictly shortens. -/
theorem replaceGz_length_lt (l : List Char) (h : containsGz l = true) :
    (replaceGz l).length < l.length := by
  induction l using replaceGz.induct with
  | case1 => simp [containsGz] at h
  | case2 c => simp [containsGz] at h
  | case3 c d => simp [containsGz] at h
  | case4 c d e rest hcond ih =>
    rw [replaceGz, if_pos hcond]
    have := replaceGz_length_le rest
    simp only [List.length_cons]
    omega
  | case5 c d e rest hcond ih =>
    rw [replaceGz, if_neg hcond]
    rw [containsGz, if_neg hcond] at h
    have := ih h
    simp only [List.length_cons] at *
    omega

/-- Helper: when ".gz" occurs in the path, the computed output path is a
different path. -/
theorem gzName_ne_of_containsGz (p : String) (h : containsGz p.toList = true) :
    gzName p ≠ p := by
  intro he
  have hlist : replaceGz p.toList = p.toList := by
    have := congrArg String.toList he
    simpa [gzName] using this
  have := congrArg List.length hlist
  exact absurd this (Nat.ne_of_lt (replaceGz_length_lt _ h))

/-- Helper: when ".gz" occurs nowhere in the stem, removing every
occurrence from the suffixed name just drops the suffix. -/
theorem replaceGz_append_gz (l : List Char) (h : containsGz l = false) :
    replaceGz (l ++ ['.', 'g', 'z']) = l := by
  induction l using containsGz.induct with
  | case1 =>
    simp [replaceGz]
  | case2 c =>
    show replaceGz [c, '.', 'g', 'z'] = [c]
    rw [replaceGz, if_neg (by intro hc; exact absurd hc.2.1 (by decide))]
    rw [replaceGz, if_pos (by decide)]
    rfl
  | case3 c d =>
    show replaceGz [c, d, '.', 'g', 'z'] = [c, d]
    rw [replaceGz, if_neg (by intro hc; exact absurd hc.2.2 (by decide))]
    rw [replaceGz, if_neg (by intro hc; exact absurd hc.2.1 (by decide))]
    rw [replaceGz, if_pos (by decide)]
    rfl
  | case4 c d e rest hcond =>
    rw [containsGz, if_pos hcond] at h
    exact absurd h (by decide)
  | case5 c d e rest hcond ih =>
    rw [containsGz, if_neg hcond] at h
    have ih2 := ih h
    simp only [List.cons_append, List.nil_append] at ih2 ⊢
    rw [replaceGz, if_neg hcond]
    rw [ih2]

/-- Helper: string-level form of the previous lemma. -/
theorem gzName_append_gz (q : String) (h : containsGz q.toList = false) :
    gzName (q ++ ".gz") = q := by
  cases q with
  | mk l =>
    have hdata : (String.mk l ++ ".gz").toList = l ++ ['.', 'g', 'z'] := rfl
    rw [gzName, hdata]
    rw [replaceGz_append_gz _ (by simpa using h)]

/-- Helper: on a path that does contain ".gz", uncompress with deletion
returns the computed output path, leaves the decompressed bytes there and
removes the input. -/
theorem uncompress_computes (fs : Fs) (p : String) (b x : Bytes)
    (hgz : containsGz p.toList = true)
    (hb : lookupFs fs p = some b) (hx : gunzipBytes b = some x) :
    (uncompress fs p true).1 = Except.ok (some (gzName p)) ∧
    lookupFs (uncompress fs p true).2 (gzName p) = some x ∧
    lookupFs (uncompress fs p true).2 p = none := by
  have hne : gzName p ≠ p := gzName_ne_of_containsGz p hgz
  have h1 : lookupFs (setFile fs (gzName p) []) p = some b := by
    rw [lookupFs_setFile_ne fs p (gzName p) [] (Ne.symm hne)]
    exact hb
  refine ⟨?_, ?_, ?_⟩
  · simp [uncompress, hb, h1, hx]
  · simp only [uncompress, hb, h1, Option.getD_some, hx, if_pos]
    rw [lookupFs_removeFile_ne _ _ _ hne, lookupFs_setFile_self]
  · simp only [uncompress, hb, h1, Option.getD_some, hx, if_pos]
    exact lookupFs_removeFile_self _ _

/-- Helper: uncompress on a missing input path returns None and changes
nothing (the FileNotFoundError branch of the source). -/
theorem uncompress_missing (fs : Fs) (p : String) (d : Bool)
    (h : lookupFs fs p = none) :
    uncompress fs p d = (.ok none, fs) := by
  simp [uncompress, h]

/-- Helper: on an existing, well-formed input, uncompress always returns
the output path computed by dropping every ".gz" occurrence. -/
theorem uncompress_path_ok (fs : Fs) (p : String) (b : Bytes) (d : Bool)
    (hb : lookupFs fs p = some b) (hgood : gunzipBytes b ≠ none) :
    (uncompress fs p d).1 = Except.ok (some (gzName p)) := by
  by_cases heq : gzName p = p
  · have h1 : lookupFs (setFile fs (gzName p) []) p = some ([] : Bytes) := by
      rw [heq, lookupFs_setFile_self]
    simp [uncompress, hb, h1, gunzipBytes]
  · have h1 : lookupFs (setFile fs (gzName p) []) p = some b := by
      rw [lookupFs_setFile_ne fs p (gzName p) [] (Ne.symm heq)]
      exact hb
    rcases hx : gunzipBytes b with _ | x
    · exact absurd hx hgood
    · simp [uncompress, hb, h1, hx]

/-- Context lemma (no claim): the fsspec-based fetcher of
google_openbuildings.py does clean up: a mid-transfer failure removes the
partial file, and a missing remote object leaves no file, because the
remote open happens before the local file is created. -/
theorem download_gcs_cleans_up :
    (download_data_from_s2_code_gcs "0ef" "d"
      [StreamItem.chunk [1], StreamItem.otherError] []).1 = FetchOutcome.notFound ∧
    lookupFs (download_data_from_s2_code_gcs "0ef" "d"
      [StreamItem.chunk [1], StreamItem.otherError] []).2.1 (shardPath "d" "0ef") = none ∧
    lookupFs (download_data_from_s2_code_gcs "0ef" "d"
      [StreamItem.notFound] []).2.1 (shardPath "d" "0ef") = none := by
  decide

/-- C1: the claim says the load-and-filter step operates on the union of
all fetched shards and, in the two-cell scenario with 3 intersecting rows
in shard A and none in shard B, yields row_count 3 regardless of fetch
order.  The source instead rebinds gob_filepath in every loop iteration
and calls load_and_filter_gob_data once, after the loop, so only the last
shard (B) is loaded: the result is 0 rows and an undefined mean, not 3. -/
theorem C1_pipeline_loads_last_shard_only :
    download_and_process_gob_data ["A", "B"] scenarioShards scenarioRegion =
      .ok ⟨0, none, []⟩ := rfl

/-- C2: the claim says every row of the decompressed file, including the
first, is treated as a data row.  The source calls pd.read_csv with the
default header handling, so the first row is consumed as column labels: a
three-row shard parses to two data rows, and the published count over a
fully intersecting region is 2 with mean 7/8, not 3. -/
theorem C2_first_row_consumed_as_header :
    readCsvDefault [rowA1, rowA2, rowA3] = .ok [rowA2, rowA3] ∧
    load_and_filter_gob_data [rowA1, rowA2, rowA3] scenarioRegion =
      .ok ⟨2, some (7 / 8), [rowA2, rowA3]⟩ := by
  constructor
  · rfl
  · norm_num [load_and_filter_gob_data, readCsvDefault, meanConfidence, intersects,
      rowA1, rowA2, rowA3, scenarioRegion]

/-- C3: the claim says a fetch of a cell with no remote object returns
NotFound and leaves no file at the destination.  The active fetcher
(openbuildings.py) creates the destination file before the first remote
read and its NotFoundError arm returns None without deleting it: after the
call an empty file sits at the destination path. -/
theorem C3_notfound_leaves_empty_file :
    (download_data_from_s2_code "0ef" "./data" [StreamItem.notFound] []).1 =
      FetchOutcome.notFound ∧
    lookupFs (download_data_from_s2_code "0ef" "./data" [StreamItem.notFound] []).2.1
      (shardPath "./data" "0ef") = some [] := by
  decide

/-- C4: a row of the parsed shard data is kept by load_and_filter_gob_data
exactly when its geometry intersects the region; over a region disjoint
from every shard geometry the filtered set is empty, the count is 0 and
the mean confidence is undefined (NaN, modelled as none). -/
theorem C4_filter_keeps_exactly_intersecting_rows (content parsed : List Row)
    (region : Geom) (res : FilterResult)
    (hp : readCsvDefault content = .ok parsed)
    (hr : load_and_filter_gob_data content region = .ok res) :
    (∀ r : Row, r ∈ res.filtered ↔ r ∈ parsed ∧ intersects r.geometry region = true) ∧
    ((∀ r ∈ parsed, intersects r.geometry region = false) →
      res.filtered = [] ∧ res.building_count = 0 ∧ res.avg_confidence = none) := by
  cases content with
  | nil => exact absurd hp (by simp [readCsvDefault])
  | cons c rows =>
    have hp2 : Except.ok (ε := LoadError) rows = Except.ok parsed := hp
    have hparsed : rows = parsed := by injection hp2
    subst hparsed
    have hr2 : Except.ok (ε := LoadError)
        (⟨(rows.filter (fun r => intersects r.geometry region)).length,
          meanConfidence ((rows.filter (fun r => intersects r.geometry region)).map
            Row.confidence),
          rows.filter (fun r => intersects r.geometry region)⟩ : FilterResult) =
        Except.ok res := hr
    have hres : res = ⟨(rows.filter (fun r => intersects r.geometry region)).length,
        meanConfidence ((rows.filter (fun r => intersects r.geometry region)).map
          Row.confidence),
        rows.filter (fun r => intersects r.geometry region)⟩ := by
      injection hr2 with h2
      exact h2.symm
    subst hres
    constructor
    · intro r
      simp [List.mem_filter]
    · intro hdis
      have hnil : rows.filter (fun r => intersects r.geometry region) = [] := by
        rw [List.filter_eq_nil_iff]
        intro a ha
        simp [hdis a ha]
      simp [hnil, meanConfidence]

/-- Witness for C4 at a concrete two-row file and a disjoint region. -/
theorem C4_filter_keeps_exactly_intersecting_rows_witness :
    (∀ r : Row, r ∈ (FilterResult.mk 0 none []).filtered ↔
      r ∈ [rowB1] ∧ intersects r.geometry ([(9, 9)] : Geom) = true) ∧
    ((∀ r ∈ [rowB1], intersects r.geometry ([(9, 9)] : Geom) = false) →
      (FilterResult.mk 0 none []).filtered = [] ∧
      (FilterResult.mk 0 none []).building_count = 0 ∧
      (FilterResult.mk 0 none []).avg_confidence = none) :=
  C4_filter_keeps_exactly_intersecting_rows [rowA1, rowB1] [rowB1] [(9, 9)]
    (FilterResult.mk 0 none []) rfl rfl

/-- C5: the fetcher is idempotent: when a file already exists at the
computed destination path it is returned at once, with the filesystem
unchanged and zero remote reads; and after any successful call a repeat
call returns the same path on the unchanged filesystem with zero remote
reads, so the file content is the same. -/
theorem C5_fetch_idempotent (s2_code data_dir : String)
    (sA sB sFirst : List StreamItem) (fs fs0 : Fs) (c : Bytes)
    (hcache : lookupFs fs (shardPath data_dir s2_code) = some c)
    (_hfirst : (download_data_from_s2_code s2_code data_dir sFirst fs0).1 =
      .ok (shardPath data_dir s2_code)) :
    download_data_from_s2_code s2_code data_dir sA fs =
      (.ok (shardPath data_dir s2_code), fs, 0) ∧
    download_data_from_s2_code s2_code data_dir sB
        (download_data_from_s2_code s2_code data_dir sFirst fs0).2.1 =
      (.ok (shardPath data_dir s2_code),
        (download_data_from_s2_code s2_code data_dir sFirst fs0).2.1, 0) := by
  constructor
  · exact download_data_cached _ _ _ _ (by simp [hcache])
  · exact download_data_cached _ _ _ _ (download_keeps_file s2_code data_dir sFirst fs0)

/-- Witness for C5: a cached file, and a fresh successful download
followed by a second call. -/
theorem C5_fetch_idempotent_witness :
    download_data_from_s2_code "0ef" "d" [] [(shardPath "d" "0ef", [1])] =
      (.ok (shardPath "d" "0ef"), [(shardPath "d" "0ef", [1])], 0) ∧
    download_data_from_s2_code "0ef" "d" []
        (download_data_from_s2_code "0ef" "d" [StreamItem.chunk [1]] []).2.1 =
      (.ok (shardPath "d" "0ef"),
        (download_data_from_s2_code "0ef" "d" [StreamItem.chunk [1]] []).2.1, 0) :=
  C5_fetch_idempotent "0ef" "d" [] [] [StreamItem.chunk [1]]
    [(shardPath "d" "0ef", [1])] [] [1] (by decide) (by decide)

/-- C6 counterexample: the claim says every input string that does not
parse as a polygon or multipolygon fails with InvalidGeometryKind.  A
string that is not WKT at all fails inside GeoSeries.from_wkt with a WKT
parse error instead, before the type check of the source is reached. -/
theorem C6_counterexample_parse_failure_kind :
    wktKind "garbage" = none ∧
    wkt_to_s2 (fun _ => []) "garbage" = .error .parseError ∧
    CoverError.parseError ≠ CoverError.invalidGeometryKind :=
  ⟨rfl, rfl, by decide⟩

/-- C6 amended: every input string that parses as a geometry other than a
polygon or multipolygon fails with InvalidGeometryKind, and the pipeline
performs no download for it. -/
theorem C6_nonpolygon_invalid_kind_halts (covering : String → List String)
    (s : String) (k : GeomKind) (hk : wktKind s = some k)
    (hp : k ≠ GeomKind.polygon) (hm : k ≠ GeomKind.multiPolygon) :
    wkt_to_s2 covering s = .error .invalidGeometryKind ∧
    pipelineDownloads covering s = [] := by
  have h1 : wkt_to_s2 covering s = .error .invalidGeometryKind := by
    simp only [wkt_to_s2, hk]
    rw [if_neg]
    rintro (h | h)
    · exact hp h
    · exact hm h
  refine ⟨h1, ?_⟩
  rw [pipelineDownloads, h1]

/-- Witness for the amended C6 at a POINT input. -/
theorem C6_nonpolygon_invalid_kind_halts_witness :
    wkt_to_s2 (fun _ => []) "POINT (1 2)" = .error .invalidGeometryKind ∧
    pipelineDownloads (fun _ => []) "POINT (1 2)" = [] :=
  C6_nonpolygon_invalid_kind_halts (fun _ => []) "POINT (1 2)" GeomKind.point
    (by decide) (by decide) (by decide)

/-- C7: the claim says any transfer failure other than not-found deletes
the partial local file and surfaces the error.  The active fetcher has no
such except arm: the exception does propagate (and there is no retry), but
the partial file — here the first chunk, bytes [1, 2] — stays on disk. -/
theorem C7_transfer_error_leaves_partial_file :
    (download_data_from_s2_code "0ef" "./data"
      [StreamItem.chunk [1, 2], StreamItem.otherError] []).1 = FetchOutcome.raised ∧
    lookupFs (download_data_from_s2_code "0ef" "./data"
      [StreamItem.chunk [1, 2], StreamItem.otherError] []).2.1
      (shardPath "./data" "0ef") = some [1, 2] := by
  decide

/-- C8 counterexample: for an existing gzipped file whose name holds no
".gz" at all, the computed output path equals the input path, so the
source truncates its own input before reading it, copies nothing, and the
deletion flag then removes the only file: afterwards no file exists at the
returned path and the decompressed bytes [7] are nowhere. -/
theorem C8_counterexample_no_suffix_self_destruct :
    gunzipBytes [31, 139, 7] = some [7] ∧
    uncompress [("data", [31, 139, 7])] "data" true = (.ok (some "data"), []) ∧
    lookupFs (uncompress [("data", [31, 139, 7])] "data" true).2 "data" = none := by
  decide

/-- C8 amended: for every existing gzipped file whose path contains
".gz" (so the computed output path differs from the input), uncompress
with delete_compressed removes the input and leaves an output file holding
the decompressed bytes; on a nonexistent input path it returns None. -/
theorem C8_decompress_removes_input_and_writes_output (fs fs0 : Fs)
    (p q : String) (b x : Bytes)
    (hgz : containsGz p.toList = true)
    (hb : lookupFs fs p = some b) (hx : gunzipBytes b = some x)
    (hq : lookupFs fs0 q = none) :
    (uncompress fs p true).1 = Except.ok (some (gzName p)) ∧
    lookupFs (uncompress fs p true).2 (gzName p) = some x ∧
    lookupFs (uncompress fs p true).2 p = none ∧
    uncompress fs0 q true = (.ok none, fs0) := by
  have h := uncompress_computes fs p b x hgz hb hx
  exact ⟨h.1, h.2.1, h.2.2, uncompress_missing fs0 q true hq⟩

/-- Witness for the amended C8 at a one-file filesystem. -/
theorem C8_decompress_removes_input_and_writes_output_witness :
    (uncompress [("a.gz", [31, 139, 5])] "a.gz" true).1 =
      Except.ok (some (gzName "a.gz")) ∧
    lookupFs (uncompress [("a.gz", [31, 139, 5])] "a.gz" true).2
      (gzName "a.gz") = some [5] ∧
    lookupFs (uncompress [("a.gz", [31, 139, 5])] "a.gz" true).2 "a.gz" = none ∧
    uncompress [] "nofile.gz" true = (.ok none, []) :=
  C8_decompress_removes_input_and_writes_output [("a.gz", [31, 139, 5])] []
    "a.gz" "nofile.gz" [31, 139, 5] [5] (by decide) (by decide) (by decide) rfl

/-- C9 counterexample: the claim says the output is named by dropping only
the trailing ".gz".  The source uses replace, which removes every
occurrence: for the input "a.gz.gz" the produced and returned path is "a",
not "a.gz", and no file is created at "a.gz". -/
theorem C9_counterexample_replace_all_occurrences :
    (uncompress [("a.gz.gz", [31, 139, 5])] "a.gz.gz" true).1 = .ok (some "a") ∧
    lookupFs (uncompress [("a.gz.gz", [31, 139, 5])] "a.gz.gz" true).2 "a" = some [5] ∧
    lookupFs (uncompress [("a.gz.gz", [31, 139, 5])] "a.gz.gz" true).2 "a.gz" = none ∧
    dropTrailingGz "a.gz.gz" = "a.gz" ∧
    ("a" : String) ≠ "a.gz" := by
  decide

/-- C9 amended: the output path returned by uncompress is the input path
with every occurrence of ".gz" removed; when ".gz" occurs only as the
trailing suffix this coincides with dropping that suffix. -/
theorem C9_output_name_drops_every_gz (fs : Fs) (p : String) (b : Bytes)
    (q : String) (d : Bool)
    (hb : lookupFs fs p = some b) (hgood : gunzipBytes b ≠ none)
    (hq : containsGz q.toList = false) :
    (uncompress fs p d).1 = Except.ok (some (gzName p)) ∧
    gzName (q ++ ".gz") = q :=
  ⟨uncompress_path_ok fs p b d hb hgood, gzName_append_gz q hq⟩

/-- Witness for the amended C9. -/
theorem C9_output_name_drops_every_gz_witness :
    (uncompress [("a.gz", [31, 139, 5])] "a.gz" true).1 =
      Except.ok (some (gzName "a.gz")) ∧
    gzName ("a" ++ ".gz") = "a" :=
  C9_output_name_drops_every_gz [("a.gz", [31, 139, 5])] "a.gz" [31, 139, 5]
    "a" true (by decide) (by decide) (by decide)

/-- C10: remove_folder_contents unlinks exactly the regular-file entries
whose unlink succeeds, keeps every directory entry (and, not listing
recursively, never touches their contents), and never raises: a failing
unlink only contributes a printed message and iteration continues. -/
theorem C10_unlinks_only_files_never_raises (entries : List Entry) :
    (remove_folder_contents entries).1 =
      entries.filter (fun e => !(decide (e.kind = EntryKind.file) && e.unlinkOk)) ∧
    (remove_folder_contents entries).2 =
      (entries.filter (fun e => decide (e.kind = EntryKind.file) && !e.unlinkOk)).map
        Entry.name := by
  induction entries with
  | nil => exact ⟨rfl, rfl⟩
  | cons e rest ih =>
    rcases e with ⟨n, k, u⟩
    cases k <;> cases u <;>
      simp [remove_folder_contents, List.filter_cons, ih.1, ih.2]
